import Mathlib

/-!
Shallow embedding of the Fynstra FHI scoring engine and goal-feasibility
evaluator, translated from `app.py`, `Fynstra.py` and
`pages/3_Goal_Tracker.py`.  Monetary amounts are modelled as rationals;
ages as naturals; the validator's and classifier's messages as the
literal strings of the source.
-/

namespace Fynstra

/-- A financial profile: the eight inputs of `calculate_fhi` in `app.py`
(age, monthly_income, monthly_expenses, monthly_savings, monthly_debt,
total_investments, net_worth, emergency_fund). -/
structure Profile where
  age : ℕ
  monthly_income : ℚ
  monthly_expenses : ℚ
  monthly_savings : ℚ
  monthly_debt : ℚ
  total_investments : ℚ
  net_worth : ℚ
  emergency_fund : ℚ
  deriving Repr, DecidableEq

/-- Age-based target multipliers (alpha, beta), `app.py` lines 154-161:
age<30 → (2.5, 2.0); <40 → (3.0, 3.0); <50 → (3.5, 4.0); else (4.0, 5.0). -/
def alphaBeta (age : ℕ) : ℚ × ℚ :=
  if age < 30 then (2.5, 2.0)
  else if age < 40 then (3.0, 3.0)
  else if age < 50 then (3.5, 4.0)
  else (4.0, 5.0)

/-- `annual_income = monthly_income * 12` (`app.py` line 163). -/
def annual_income (p : Profile) : ℚ := p.monthly_income * 12

/-- Net-worth sub-score, `app.py` line 166:
`min(max((net_worth / (annual_income * alpha)) * 100, 0), 100) if annual_income > 0 else 0`. -/
def Nworth (p : Profile) : ℚ :=
  if annual_income p > 0 then
    min (max ((p.net_worth / (annual_income p * (alphaBeta p.age).1)) * 100) 0) 100
  else 0

/-- Debt-to-income sub-score, `app.py` line 167:
`100 - min((monthly_debt / monthly_income) * 100, 100) if monthly_income > 0 else 0`. -/
def DTI (p : Profile) : ℚ :=
  if p.monthly_income > 0 then
    100 - min ((p.monthly_debt / p.monthly_income) * 100) 100
  else 0

/-- Savings-rate sub-score, `app.py` line 168:
`min((monthly_savings / monthly_income) * 100, 100) if monthly_income > 0 else 0`. -/
def Srate (p : Profile) : ℚ :=
  if p.monthly_income > 0 then
    min ((p.monthly_savings / p.monthly_income) * 100) 100
  else 0

/-- Investment sub-score, `app.py` line 169:
`min(max((total_investments / (beta * annual_income)) * 100, 0), 100) if annual_income > 0 else 0`. -/
def Invest (p : Profile) : ℚ :=
  if annual_income p > 0 then
    min (max ((p.total_investments / ((alphaBeta p.age).2 * annual_income p)) * 100) 0) 100
  else 0

/-- Emergency-fund sub-score, `app.py` line 170:
`min((emergency_fund / monthly_expenses) / 6 * 100, 100) if monthly_expenses > 0 else 0`. -/
def Emerg (p : Profile) : ℚ :=
  if p.monthly_expenses > 0 then
    min ((p.emergency_fund / p.monthly_expenses) / 6 * 100) 100
  else 0

/-- The five component scores, keyed in the dict order of `app.py`
lines 175-181. -/
structure Components where
  netWorth : ℚ
  debtToIncome : ℚ
  savingsRate : ℚ
  investment : ℚ
  emergencyFund : ℚ
  deriving Repr, DecidableEq

/-- Composite FHI, `app.py` line 173:
`FHI = 0.20 * Nworth + 0.15 * DTI + 0.15 * Srate + 0.15 * Invest + 0.20 * Emerg + 15`. -/
def FHI (p : Profile) : ℚ :=
  0.20 * Nworth p + 0.15 * DTI p + 0.15 * Srate p + 0.15 * Invest p + 0.20 * Emerg p + 15

/-- `calculate_fhi` (`app.py` lines 149-183): returns the composite and the
component dict. -/
def calculate_fhi (p : Profile) : ℚ × Components :=
  (FHI p, ⟨Nworth p, DTI p, Srate p, Invest p, Emerg p⟩)

/-- `validate_financial_inputs` (`app.py` lines 133-147): returns
(errors, warnings). -/
def validate_financial_inputs (income expenses debt savings : ℚ) :
    List String × List String :=
  let errors :=
    if debt > income then ["⚠️ Your monthly debt payments exceed your income"] else []
  let warnings :=
    (if expenses > income then ["⚠️ Your monthly expenses exceed your income"] else []) ++
    (if savings + expenses + debt > income * 1.1 then
      ["⚠️ Your total monthly obligations seem high relative to income"] else [])
  (errors, warnings)

/-- The calculator flow of `app.py` lines 410-427: validation errors or a
zero income/expense block the computation (`None`); otherwise
`calculate_fhi` runs. -/
def run_calculator (p : Profile) : Option (ℚ × Components) :=
  let v := validate_financial_inputs p.monthly_income p.monthly_expenses
    p.monthly_debt p.monthly_savings
  if v.1 ≠ [] then none
  else if p.monthly_income = 0 ∨ p.monthly_expenses = 0 then none
  else some (calculate_fhi p)

/-- Python's `str.lower()`, modelled over the string's character list
(the labels involved are ASCII, where this is exact). -/
def lower (s : String) : String := ⟨s.data.map Char.toLower⟩

/-- The components dict of `app.py` lines 175-181 as an ordered
association list (Python dicts preserve insertion order). -/
def componentList (c : Components) : List (String × ℚ) :=
  [("Net Worth", c.netWorth),
   ("Debt-to-Income", c.debtToIncome),
   ("Savings Rate", c.savingsRate),
   ("Investment", c.investment),
   ("Emergency Fund", c.emergencyFund)]

/-- Weak-area detection, `app.py` lines 450-453: iterate the components
dict in order, collecting `component.lower()` whenever `score < 60`. -/
def weak_areas (c : Components) : List String :=
  ((componentList c).filter (fun x => x.2 < 60)).map (fun x => lower x.1)

/-- The closing sentence appended to a non-empty weakness text
(`app.py` line 464). -/
def weakClosing : String :=
  " Addressing this will help strengthen your overall financial health."

/-- Weakness-narrative assembly, `app.py` lines 456-464. -/
def weak_text : List String → String
  | [] => ""
  | [x] => " However, your " ++ x ++ " needs improvement." ++ weakClosing
  | xs =>
    " However, your " ++ String.intercalate ", " xs.dropLast ++ " and " ++
      xs.getLastD "" ++ " need improvement." ++ weakClosing

/-- Qualitative tier of the final output branch, `app.py` lines 467-474. -/
inductive Tier where
  | excellent
  | good
  | fair
  | needsImprovement
  deriving Repr, DecidableEq

/-- Tier selection, `app.py` lines 467-474: FHI≥85 → Excellent;
≥70 → Good; ≥50 → Fair; else NeedsImprovement. -/
def tier (f : ℚ) : Tier :=
  if f ≥ 85 then .excellent
  else if f ≥ 70 then .good
  else if f ≥ 50 then .fair
  else .needsImprovement

/-- Rounding to two decimals, as in `FHI_rounded = round(FHI, 2)`
(`app.py` line 428); at non-tie values this agrees with Python. -/
def round2 (x : ℚ) : ℚ := (round (x * 100) : ℚ) / 100

/-- The canonical weak-area labels in the fixed dict order, lowercased as
the code emits them. -/
def canonicalWeakOrder : List String :=
  ["net worth", "debt-to-income", "savings rate", "investment", "emergency fund"]

/-! Goal tracker (`pages/3_Goal_Tracker.py`). -/

/-- Effective minimum FHI on the goal-card path, line 54:
`min_fhi = FHI if goal.get("use_recommended_fhi", True) else 50`. -/
def card_min_fhi (fhi : ℚ) (use_rec : Bool) : ℚ :=
  if use_rec then fhi else 50

/-- Effective minimum FHI on the detail-view path, lines 130-131:
the current FHI when the recommended box is checked, else the slider
value chosen by the user. -/
def detail_min_fhi (fhi : ℚ) (use_rec : Bool) (slider : ℚ) : ℚ :=
  if use_rec then fhi else slider

/-- `months = max(delta.days // 30, 1)` (lines 58 and 142); Python's
floor division is `Int.fdiv`. -/
def months_remaining (days : ℤ) : ℤ := max (Int.fdiv days 30) 1

/-- `remaining_amount = max(goal_amount - current_savings, 0)`
(lines 59 and 143). -/
def remaining_amount (goal_amount current_savings : ℚ) : ℚ :=
  max (goal_amount - current_savings) 0

/-- `required_monthly_saving = remaining_amount / months`
(lines 60 and 144). -/
def required_monthly_saving (goal_amount current_savings : ℚ) (days : ℤ) : ℚ :=
  remaining_amount goal_amount current_savings / (months_remaining days : ℚ)

/-- `available_to_save = max(monthly_income - monthly_expenses, 0)`
(lines 61 and 145). -/
def available_to_save (income expenses : ℚ) : ℚ := max (income - expenses) 0

/-- Goal-card on-track status, line 63:
`on_track = required_monthly_saving <= available_to_save and FHI >= min_fhi`. -/
def goal_card_on_track (fhi income expenses current_savings goal_amount : ℚ)
    (use_rec : Bool) (days : ℤ) : Bool :=
  let min_fhi := card_min_fhi fhi use_rec
  let required := required_monthly_saving goal_amount current_savings days
  let available := available_to_save income expenses
  decide (required ≤ available) && decide (fhi ≥ min_fhi)

/-- Detail-view status check, line 150:
`required_monthly_saving <= available_to_save and FHI >= min_fhi`,
with `min_fhi` from the checkbox/slider of lines 130-131. -/
def detail_on_track (fhi income expenses current_savings goal_amount : ℚ)
    (use_rec : Bool) (slider : ℚ) (days : ℤ) : Bool :=
  let min_fhi := detail_min_fhi fhi use_rec slider
  let required := required_monthly_saving goal_amount current_savings days
  let available := available_to_save income expenses
  decide (required ≤ available) && decide (fhi ≥ min_fhi)

/-- Scenario A of the spec: age=25, income=50000, expenses=30000,
savings=5000, debt=5000, investments=20000, netWorth=100000,
emergencyFund=90000. -/
def scenarioA : Profile := ⟨25, 50000, 30000, 5000, 5000, 20000, 100000, 90000⟩

/-- A concrete profile whose five sub-scores all evaluate to 100. -/
def fullMarks : Profile := ⟨25, 1, 1, 1, 0, 24, 30, 6⟩

/-- A concrete profile with zero income and zero expenses. -/
def zeroProfile : Profile := ⟨25, 0, 0, 0, 0, 0, 0, 0⟩

/-! ## Basic lemmas about the sub-scores -/

lemma alphaBeta_fst_pos (age : ℕ) : 0 < (alphaBeta age).1 := by
  unfold alphaBeta
  split_ifs <;> norm_num

lemma alphaBeta_snd_pos (age : ℕ) : 0 < (alphaBeta age).2 := by
  unfold alphaBeta
  split_ifs <;> norm_num

lemma Nworth_mem (p : Profile) : 0 ≤ Nworth p ∧ Nworth p ≤ 100 := by
  unfold Nworth
  split_ifs
  · exact ⟨le_min (le_max_right _ _) (by norm_num), min_le_right _ _⟩
  · norm_num

lemma Invest_mem (p : Profile) : 0 ≤ Invest p ∧ Invest p ≤ 100 := by
  unfold Invest
  split_ifs
  · exact ⟨le_min (le_max_right _ _) (by norm_num), min_le_right _ _⟩
  · norm_num

lemma DTI_mem (p : Profile) (hI : 0 < p.monthly_income) (hd : 0 ≤ p.monthly_debt) :
    0 ≤ DTI p ∧ DTI p ≤ 100 := by
  unfold DTI
  rw [if_pos hI]
  have hm : min ((p.monthly_debt / p.monthly_income) * 100) 100 ≤ 100 := min_le_right _ _
  have h0 : 0 ≤ min ((p.monthly_debt / p.monthly_income) * 100) 100 :=
    le_min (mul_nonneg (div_nonneg hd hI.le) (by norm_num)) (by norm_num)
  constructor <;> linarith

lemma Srate_mem (p : Profile) (hI : 0 < p.monthly_income) (hs : 0 ≤ p.monthly_savings) :
    0 ≤ Srate p ∧ Srate p ≤ 100 := by
  unfold Srate
  rw [if_pos hI]
  exact ⟨le_min (mul_nonneg (div_nonneg hs hI.le) (by norm_num)) (by norm_num),
    min_le_right _ _⟩

lemma Emerg_mem (p : Profile) (hE : 0 < p.monthly_expenses) (he : 0 ≤ p.emergency_fund) :
    0 ≤ Emerg p ∧ Emerg p ≤ 100 := by
  unfold Emerg
  rw [if_pos hE]
  exact ⟨le_min (mul_nonneg (div_nonneg (div_nonneg he hE.le) (by norm_num)) (by norm_num))
    (by norm_num), min_le_right _ _⟩

/-! ## Claims C1-C4 -/

/-- Claim C1: for every profile whose eight inputs are non-negative and whose
monthly income and monthly expenses are nonzero, each of the five sub-scores
returned by `calculate_fhi` (NetWorth, DebtToIncome, SavingsRate, Investment,
EmergencyFund) lies in [0,100], and the composite FHI lies in [15,100]. -/
theorem C1_subscores_and_composite_bounded (p : Profile)
    (h1 : 0 ≤ p.monthly_income) (h2 : 0 ≤ p.monthly_expenses)
    (h3 : 0 ≤ p.monthly_savings) (h4 : 0 ≤ p.monthly_debt)
    (h5 : 0 ≤ p.total_investments) (h6 : 0 ≤ p.net_worth)
    (h7 : 0 ≤ p.emergency_fund)
    (hi : p.monthly_income ≠ 0) (he : p.monthly_expenses ≠ 0) :
    (0 ≤ (calculate_fhi p).2.netWorth ∧ (calculate_fhi p).2.netWorth ≤ 100) ∧
    (0 ≤ (calculate_fhi p).2.debtToIncome ∧ (calculate_fhi p).2.debtToIncome ≤ 100) ∧
    (0 ≤ (calculate_fhi p).2.savingsRate ∧ (calculate_fhi p).2.savingsRate ≤ 100) ∧
    (0 ≤ (calculate_fhi p).2.investment ∧ (calculate_fhi p).2.investment ≤ 100) ∧
    (0 ≤ (calculate_fhi p).2.emergencyFund ∧ (calculate_fhi p).2.emergencyFund ≤ 100) ∧
    (15 ≤ (calculate_fhi p).1 ∧ (calculate_fhi p).1 ≤ 100) := by
  have hI : 0 < p.monthly_income := lt_of_le_of_ne h1 (Ne.symm hi)
  have hE : 0 < p.monthly_expenses := lt_of_le_of_ne h2 (Ne.symm he)
  have hn := Nworth_mem p
  have hd := DTI_mem p hI h4
  have hs := Srate_mem p hI h3
  have hv := Invest_mem p
  have hg := Emerg_mem p hE h7
  simp only [calculate_fhi]
  refine ⟨hn, hd, hs, hv, hg, ?_, ?_⟩ <;>
    · unfold FHI
      nlinarith [hn.1, hn.2, hd.1, hd.2, hs.1, hs.2, hv.1, hv.2, hg.1, hg.2]

/-- Witness for C1 at Scenario A's profile. -/
theorem C1_witness :
    (0 ≤ (calculate_fhi scenarioA).2.netWorth ∧ (calculate_fhi scenarioA).2.netWorth ≤ 100) ∧
    (0 ≤ (calculate_fhi scenarioA).2.debtToIncome ∧
      (calculate_fhi scenarioA).2.debtToIncome ≤ 100) ∧
    (0 ≤ (calculate_fhi scenarioA).2.savingsRate ∧
      (calculate_fhi scenarioA).2.savingsRate ≤ 100) ∧
    (0 ≤ (calculate_fhi scenarioA).2.investment ∧ (calculate_fhi scenarioA).2.investment ≤ 100) ∧
    (0 ≤ (calculate_fhi scenarioA).2.emergencyFund ∧
      (calculate_fhi scenarioA).2.emergencyFund ≤ 100) ∧
    (15 ≤ (calculate_fhi scenarioA).1 ∧ (calculate_fhi scenarioA).1 ≤ 100) :=
  C1_subscores_and_composite_bounded scenarioA (by norm_num [scenarioA])
    (by norm_num [scenarioA]) (by norm_num [scenarioA]) (by norm_num [scenarioA])
    (by norm_num [scenarioA]) (by norm_num [scenarioA]) (by norm_num [scenarioA])
    (by norm_num [scenarioA]) (by norm_num [scenarioA])

/-- Claim C2: the composite returned by `calculate_fhi` equals exactly
0.20·NetWorth + 0.15·DebtToIncome + 0.15·SavingsRate + 0.15·Investment +
0.20·EmergencyFund + 15 over the already-clamped sub-scores, with no further
clamp; in particular, five sub-scores all equal to 100 yield composite
exactly 100. -/
theorem C2_composite_formula_unclamped (p : Profile) :
    (calculate_fhi p).1 =
      0.20 * (calculate_fhi p).2.netWorth + 0.15 * (calculate_fhi p).2.debtToIncome +
        0.15 * (calculate_fhi p).2.savingsRate + 0.15 * (calculate_fhi p).2.investment +
        0.20 * (calculate_fhi p).2.emergencyFund + 15 ∧
    ((calculate_fhi p).2.netWorth = 100 → (calculate_fhi p).2.debtToIncome = 100 →
      (calculate_fhi p).2.savingsRate = 100 → (calculate_fhi p).2.investment = 100 →
      (calculate_fhi p).2.emergencyFund = 100 → (calculate_fhi p).1 = 100) := by
  simp only [calculate_fhi]
  refine ⟨rfl, ?_⟩
  intro e1 e2 e3 e4 e5
  unfold FHI
  rw [e1, e2, e3, e4, e5]
  norm_num

/-- Witness for C2: the concrete profile `fullMarks` has all five sub-scores
equal to 100 and composite exactly 100. -/
theorem C2_witness : (calculate_fhi fullMarks).1 = 100 :=
  (C2_composite_formula_unclamped fullMarks).2
    (by norm_num [calculate_fhi, Nworth, annual_income, alphaBeta, fullMarks, min_def, max_def])
    (by norm_num [calculate_fhi, DTI, fullMarks, min_def])
    (by norm_num [calculate_fhi, Srate, fullMarks, min_def])
    (by norm_num [calculate_fhi, Invest, annual_income, alphaBeta, fullMarks, min_def, max_def])
    (by norm_num [calculate_fhi, Emerg, fullMarks, min_def])

/-- Claim C3: `validate_financial_inputs` returns an error entry iff
debt > income, a warning iff expenses > income, a warning iff
savings + expenses + debt > income × 1.1, and nothing else; for
income = 20000 and debt = 25000 it returns a hard error and the calculator
flow does not compute a score. -/
theorem C3_validator_errors_and_warnings :
    (∀ income expenses debt savings : ℚ,
      ((validate_financial_inputs income expenses debt savings).1 ≠ [] ↔ debt > income) ∧
      (∀ e ∈ (validate_financial_inputs income expenses debt savings).1,
        e = "⚠️ Your monthly debt payments exceed your income") ∧
      ("⚠️ Your monthly expenses exceed your income" ∈
          (validate_financial_inputs income expenses debt savings).2 ↔ expenses > income) ∧
      ("⚠️ Your total monthly obligations seem high relative to income" ∈
          (validate_financial_inputs income expenses debt savings).2 ↔
        savings + expenses + debt > income * 1.1) ∧
      (∀ w ∈ (validate_financial_inputs income expenses debt savings).2,
        w = "⚠️ Your monthly expenses exceed your income" ∨
          w = "⚠️ Your total monthly obligations seem high relative to income")) ∧
    (∀ p : Profile, p.monthly_income = 20000 → p.monthly_debt = 25000 →
      (validate_financial_inputs p.monthly_income p.monthly_expenses p.monthly_debt
          p.monthly_savings).1 ≠ [] ∧ run_calculator p = none) := by
  constructor
  · intro income expenses debt savings
    unfold validate_financial_inputs
    refine ⟨?_, ?_, ?_, ?_, ?_⟩ <;> split_ifs with ha hb hc <;> simp_all
  · intro p hI hD
    have hgt : p.monthly_debt > p.monthly_income := by rw [hI, hD]; norm_num
    constructor
    · unfold validate_financial_inputs
      simp [hgt]
    · unfold run_calculator validate_financial_inputs
      simp [hgt]

/-- Witness for C3 at Scenario B: income = 20000, debt = 25000. -/
theorem C3_witness :
    (validate_financial_inputs 20000 0 25000 0).1 ≠ [] ∧
      run_calculator ⟨30, 20000, 0, 0, 25000, 0, 0, 0⟩ = none :=
  ⟨(C3_validator_errors_and_warnings.1 20000 0 25000 0).1.mpr (by norm_num),
    (C3_validator_errors_and_warnings.2 ⟨30, 20000, 0, 0, 25000, 0, 0, 0⟩ rfl rfl).2⟩

/-- Claim C4: `calculate_fhi` is total; when monthly income is 0 the
NetWorth, DebtToIncome, SavingsRate and Investment sub-scores are each 0,
and when monthly expenses is 0 the EmergencyFund sub-score is 0 (the
function is a total Lean definition, so no exception can arise). -/
theorem C4_zero_denominator_guards (p : Profile) :
    (p.monthly_income = 0 →
      (calculate_fhi p).2.netWorth = 0 ∧ (calculate_fhi p).2.debtToIncome = 0 ∧
        (calculate_fhi p).2.savingsRate = 0 ∧ (calculate_fhi p).2.investment = 0) ∧
    (p.monthly_expenses = 0 → (calculate_fhi p).2.emergencyFund = 0) := by
  constructor
  · intro h
    simp [calculate_fhi, Nworth, DTI, Srate, Invest, annual_income, h]
  · intro h
    simp [calculate_fhi, Emerg, h]

/-- Witness for C4 at the all-zero profile. -/
theorem C4_witness :
    (calculate_fhi zeroProfile).2.netWorth = 0 ∧ (calculate_fhi zeroProfile).2.debtToIncome = 0 ∧
      (calculate_fhi zeroProfile).2.savingsRate = 0 ∧
      (calculate_fhi zeroProfile).2.investment = 0 ∧
      (calculate_fhi zeroProfile).2.emergencyFund = 0 := by
  have h := C4_zero_denominator_guards zeroProfile
  exact ⟨(h.1 rfl).1, (h.1 rfl).2.1, (h.1 rfl).2.2.1, (h.1 rfl).2.2.2, h.2 rfl⟩

/-! ## Claims C5-C7 -/

/-- Claim C5 fails on the code: on the goal-card path with
useRecommendedMinFHI false, the effective minimum FHI is the hardcoded
default 50, not a user-chosen override; with current FHI 60 and override
80 ∈ [0,100] the card computes 50 ≠ 80. -/
theorem C5_counterexample :
    (0:ℚ) ≤ 80 ∧ (80:ℚ) ≤ 100 ∧ card_min_fhi 60 false = 50 ∧ card_min_fhi 60 false ≠ 80 := by
  norm_num [card_min_fhi]

/-- Claim C5 as amended: on the detail view the effective minimum FHI is the
current FHI when useRecommendedMinFHI is true and otherwise the user-chosen
slider override; on the goal-card display it is the current FHI when
useRecommendedMinFHI is true and otherwise the fixed default 50; on both
paths onTrack holds iff requiredMonthlySaving ≤ availableCapacity and the
current FHI ≥ that path's effective minimum. -/
theorem C5_amended_min_fhi_paths
    (fhi slider income expenses current_savings goal_amount : ℚ)
    (use_rec : Bool) (days : ℤ) :
    detail_min_fhi fhi use_rec slider = (if use_rec then fhi else slider) ∧
    card_min_fhi fhi use_rec = (if use_rec then fhi else 50) ∧
    (goal_card_on_track fhi income expenses current_savings goal_amount use_rec days = true ↔
      (required_monthly_saving goal_amount current_savings days ≤
          available_to_save income expenses ∧ fhi ≥ card_min_fhi fhi use_rec)) ∧
    (detail_on_track fhi income expenses current_savings goal_amount use_rec slider days = true ↔
      (required_monthly_saving goal_amount current_savings days ≤
          available_to_save income expenses ∧ fhi ≥ detail_min_fhi fhi use_rec slider)) := by
  refine ⟨rfl, rfl, ?_, ?_⟩ <;>
    simp [goal_card_on_track, detail_on_track, Bool.and_eq_true, decide_eq_true_eq]

/-- Claim C6: monthsRemaining equals max(floor(days/30), 1), is never less
than 1, equals exactly 1 for a target date equal to today or in the past
(days ≤ 0), and requiredMonthlySaving = max(goalAmount − currentSavings, 0)
divided by it is always defined (the denominator is nonzero). -/
theorem C6_months_remaining_at_least_one (days : ℤ) (goal_amount current_savings : ℚ) :
    months_remaining days = max (Int.fdiv days 30) 1 ∧
    1 ≤ months_remaining days ∧
    (days ≤ 0 → months_remaining days = 1) ∧
    (months_remaining days : ℚ) ≠ 0 ∧
    required_monthly_saving goal_amount current_savings days =
      max (goal_amount - current_savings) 0 / (months_remaining days : ℚ) := by
  have h1 : 1 ≤ months_remaining days := le_max_right _ _
  refine ⟨rfl, h1, ?_, ?_, rfl⟩
  · intro hdle
    have hf : Int.fdiv days 30 ≤ 0 := by
      rw [Int.fdiv_eq_ediv] <;> omega
    exact max_eq_right (le_trans hf (by norm_num))
  · have h0 : (0:ℤ) < months_remaining days := by omega
    exact Int.cast_ne_zero.mpr h0.ne'

/-- Witness for C6: a goal due a week ago is treated as due in one month. -/
theorem C6_witness : months_remaining (-7) = 1 :=
  (C6_months_remaining_at_least_one (-7) 0 0).2.2.1 (by norm_num)

/-- Claim C7 (Scenario A): for age=25, income=50000, expenses=30000,
savings=5000, debt=5000, investments=20000, netWorth=100000,
emergencyFund=90000, `calculate_fhi` selects α=2.5, β=2.0, produces
sub-scores NetWorth=100000/1500000×100, DebtToIncome=90, SavingsRate=10,
Investment=20000/1200000×100, EmergencyFund=50, a composite that rounds to
41.58 at two decimals, exactly the four sub-components other than
DebtToIncome weak, and tier NeedsImprovement. -/
theorem C7_scenarioA_evaluation :
    alphaBeta scenarioA.age = (2.5, 2.0) ∧
    (calculate_fhi scenarioA).2.netWorth = 100000 / 1500000 * 100 ∧
    (calculate_fhi scenarioA).2.debtToIncome = 90 ∧
    (calculate_fhi scenarioA).2.savingsRate = 10 ∧
    (calculate_fhi scenarioA).2.investment = 20000 / 1200000 * 100 ∧
    (calculate_fhi scenarioA).2.emergencyFund = 50 ∧
    round2 (calculate_fhi scenarioA).1 = 41.58 ∧
    weak_areas (calculate_fhi scenarioA).2 =
      ["net worth", "savings rate", "investment", "emergency fund"] ∧
    tier (calculate_fhi scenarioA).1 = .needsImprovement := by
  have hn : Nworth scenarioA = 20 / 3 := by
    norm_num [Nworth, annual_income, alphaBeta, scenarioA, min_def, max_def]
  have hd : DTI scenarioA = 90 := by norm_num [DTI, scenarioA, min_def]
  have hs : Srate scenarioA = 10 := by norm_num [Srate, scenarioA, min_def]
  have hv : Invest scenarioA = 5 / 3 := by
    norm_num [Invest, annual_income, alphaBeta, scenarioA, min_def, max_def]
  have hg : Emerg scenarioA = 50 := by norm_num [Emerg, scenarioA, min_def]
  have hF : FHI scenarioA = 499 / 12 := by rw [FHI, hn, hd, hs, hv, hg]; norm_num
  simp only [calculate_fhi]
  refine ⟨by norm_num [alphaBeta, scenarioA], by rw [hn]; norm_num, hd, hs,
    by rw [hv]; norm_num, hg, ?_, ?_, ?_⟩
  · rw [round2, hF]
    norm_num [round_eq]
  · rw [hn, hd, hs, hv, hg]
    norm_num [weak_areas, componentList, List.filter]
    decide
  · rw [hF]
    norm_num [tier]

/-! ## Classifier lemmas and claims C8-C10 -/

lemma tier_iff (f : ℚ) :
    (tier f = .excellent ↔ 85 ≤ f) ∧
    (tier f = .good ↔ 70 ≤ f ∧ f < 85) ∧
    (tier f = .fair ↔ 50 ≤ f ∧ f < 70) ∧
    (tier f = .needsImprovement ↔ f < 50) := by
  unfold tier
  split_ifs with h1 h2 h3 <;>
    refine ⟨?_, ?_, ?_, ?_⟩ <;>
    constructor <;>
    intro h
  all_goals try obtain ⟨ha, hb⟩ := h
  all_goals first
    | rfl
    | linarith
    | (constructor <;> linarith)
    | (exfalso; linarith)

lemma lower_labels :
    lower "Net Worth" = "net worth" ∧ lower "Debt-to-Income" = "debt-to-income" ∧
    lower "Savings Rate" = "savings rate" ∧ lower "Investment" = "investment" ∧
    lower "Emergency Fund" = "emergency fund" :=
  ⟨by decide, by decide, by decide, by decide, by decide⟩

lemma mem_weak_areas (c : Components) :
    ("net worth" ∈ weak_areas c ↔ c.netWorth < 60) ∧
    ("debt-to-income" ∈ weak_areas c ↔ c.debtToIncome < 60) ∧
    ("savings rate" ∈ weak_areas c ↔ c.savingsRate < 60) ∧
    ("investment" ∈ weak_areas c ↔ c.investment < 60) ∧
    ("emergency fund" ∈ weak_areas c ↔ c.emergencyFund < 60) := by
  simp only [weak_areas, componentList, List.mem_map, List.mem_filter,
    List.mem_cons, List.not_mem_nil, or_false]
  refine ⟨⟨?_, fun hlt => ⟨("Net Worth", c.netWorth), ⟨Or.inl rfl, by simpa using hlt⟩,
      lower_labels.1⟩⟩,
    ⟨?_, fun hlt => ⟨("Debt-to-Income", c.debtToIncome), ⟨Or.inr (Or.inl rfl),
      by simpa using hlt⟩, lower_labels.2.1⟩⟩,
    ⟨?_, fun hlt => ⟨("Savings Rate", c.savingsRate), ⟨Or.inr (Or.inr (Or.inl rfl)),
      by simpa using hlt⟩, lower_labels.2.2.1⟩⟩,
    ⟨?_, fun hlt => ⟨("Investment", c.investment), ⟨Or.inr (Or.inr (Or.inr (Or.inl rfl))),
      by simpa using hlt⟩, lower_labels.2.2.2.1⟩⟩,
    ⟨?_, fun hlt => ⟨("Emergency Fund", c.emergencyFund),
      ⟨Or.inr (Or.inr (Or.inr (Or.inr rfl))), by simpa using hlt⟩,
      lower_labels.2.2.2.2⟩⟩⟩ <;>
  · rintro ⟨a, ⟨hmem, hlt⟩, heq⟩
    rcases hmem with h | h | h | h | h <;> subst h <;>
      simp_all [lower_labels.1, lower_labels.2.1, lower_labels.2.2.1,
        lower_labels.2.2.2.1, lower_labels.2.2.2.2]

lemma weak_sublist (c : Components) : List.Sublist (weak_areas c) canonicalWeakOrder := by
  have h1 : List.Sublist (weak_areas c) ((componentList c).map (fun x => lower x.1)) :=
    List.Sublist.map _ (List.filter_sublist _)
  have h2 : (componentList c).map (fun x => lower x.1) = canonicalWeakOrder := by
    simp only [componentList, canonicalWeakOrder, List.map_cons, List.map_nil]
    rw [lower_labels.1, lower_labels.2.1, lower_labels.2.2.1,
      lower_labels.2.2.2.1, lower_labels.2.2.2.2]
  rw [h2] at h1
  exact h1

/-- Claim C8: the weak-area list contains exactly the sub-components whose
score is strictly below 60, in the fixed canonical order (it is a sublist of
the canonical label order); the tier thresholds are FHI≥85 Excellent,
70≤FHI<85 Good, 50≤FHI<70 Fair, else NeedsImprovement; and the narrative
addendum is empty for no weak areas, "However, your {X} needs improvement."
for one, and joins multiple as "{all but last, comma-joined} and {last}",
with the fixed closing sentence appended whenever the list is non-empty. -/
theorem C8_classifier_weak_areas_tier_narrative (c : Components) (f : ℚ)
    (x y : String) (zs : List String) :
    (("net worth" ∈ weak_areas c ↔ c.netWorth < 60) ∧
      ("debt-to-income" ∈ weak_areas c ↔ c.debtToIncome < 60) ∧
      ("savings rate" ∈ weak_areas c ↔ c.savingsRate < 60) ∧
      ("investment" ∈ weak_areas c ↔ c.investment < 60) ∧
      ("emergency fund" ∈ weak_areas c ↔ c.emergencyFund < 60)) ∧
    List.Sublist (weak_areas c) canonicalWeakOrder ∧
    ((tier f = .excellent ↔ 85 ≤ f) ∧ (tier f = .good ↔ 70 ≤ f ∧ f < 85) ∧
      (tier f = .fair ↔ 50 ≤ f ∧ f < 70) ∧ (tier f = .needsImprovement ↔ f < 50)) ∧
    (weak_text [] = "" ∧
      weak_text [x] = " However, your " ++ x ++ " needs improvement." ++ weakClosing ∧
      weak_text (x :: y :: zs) =
        " However, your " ++ String.intercalate ", " ((x :: y :: zs).dropLast) ++ " and " ++
          (x :: y :: zs).getLastD "" ++ " need improvement." ++ weakClosing) :=
  ⟨mem_weak_areas c, weak_sublist c, tier_iff f, rfl, rfl, rfl⟩

/-- Claim C9: with all other inputs fixed (income non-negative and nonzero),
the NetWorth sub-score is monotonically non-decreasing in netWorth, and the
DebtToIncome sub-score is monotonically non-increasing in monthlyDebt. -/
theorem C9_monotonicity (age : ℕ) (inc exp sav debt1 debt2 invs nw1 nw2 ef : ℚ)
    (h0 : 0 ≤ inc) (hi : inc ≠ 0) (hnw : nw1 ≤ nw2) (hd : debt1 ≤ debt2) :
    Nworth ⟨age, inc, exp, sav, debt1, invs, nw1, ef⟩ ≤
      Nworth ⟨age, inc, exp, sav, debt1, invs, nw2, ef⟩ ∧
    DTI ⟨age, inc, exp, sav, debt2, invs, nw1, ef⟩ ≤
      DTI ⟨age, inc, exp, sav, debt1, invs, nw1, ef⟩ := by
  have hI : 0 < inc := lt_of_le_of_ne h0 (Ne.symm hi)
  have hA : (0:ℚ) < inc * 12 := by positivity
  have hα := alphaBeta_fst_pos age
  constructor
  · unfold Nworth annual_income
    dsimp only
    rw [if_pos hA, if_pos hA]
    have hD : (0:ℚ) < inc * 12 * (alphaBeta age).1 := mul_pos hA hα
    exact min_le_min (max_le_max (mul_le_mul_of_nonneg_right
      ((div_le_div_right hD).mpr hnw) (by norm_num)) le_rfl) (le_refl 100)
  · unfold DTI
    dsimp only
    rw [if_pos hI, if_pos hI]
    have hmin := min_le_min (mul_le_mul_of_nonneg_right ((div_le_div_right hI).mpr hd)
      (by norm_num : (0:ℚ) ≤ 100)) (le_refl (100:ℚ))
    linarith

/-- Witness for C9 at concrete inputs. -/
theorem C9_witness :
    Nworth ⟨25, 1, 1, 0, 0, 0, 1, 0⟩ ≤ Nworth ⟨25, 1, 1, 0, 0, 0, 2, 0⟩ ∧
      DTI ⟨25, 1, 1, 0, 1, 0, 1, 0⟩ ≤ DTI ⟨25, 1, 1, 0, 0, 0, 1, 0⟩ :=
  C9_monotonicity 25 1 1 0 0 1 0 1 2 0 (by norm_num) (by norm_num)
    (by norm_num) (by norm_num)

/-- Claim C10: with useRecommendedMinFHI true the effective minimum FHI is
the profile's own FHI on both evaluation paths, so the FHI gate is always
satisfied and onTrack holds iff requiredMonthlySaving ≤ availableCapacity;
the FHI gate can only fail when useRecommendedMinFHI is false (i.e. when
the user has switched to an override). -/
theorem C10_recommended_min_fhi_gate
    (fhi slider income expenses current_savings goal_amount : ℚ)
    (use_rec : Bool) (days : ℤ) :
    card_min_fhi fhi true = fhi ∧ detail_min_fhi fhi true slider = fhi ∧
    fhi ≥ card_min_fhi fhi true ∧
    (goal_card_on_track fhi income expenses current_savings goal_amount true days = true ↔
      required_monthly_saving goal_amount current_savings days ≤
        available_to_save income expenses) ∧
    (detail_on_track fhi income expenses current_savings goal_amount true slider days = true ↔
      required_monthly_saving goal_amount current_savings days ≤
        available_to_save income expenses) ∧
    (fhi < card_min_fhi fhi use_rec → use_rec = false) ∧
    (fhi < detail_min_fhi fhi use_rec slider → use_rec = false) := by
  refine ⟨rfl, rfl, le_refl fhi, ?_, ?_, ?_, ?_⟩
  · simp [goal_card_on_track, card_min_fhi]
  · simp [detail_on_track, detail_min_fhi]
  · cases use_rec
    · intro _
      rfl
    · intro h
      exact absurd h (lt_irrefl fhi)
  · cases use_rec
    · intro _
      rfl
    · intro h
      exact absurd h (lt_irrefl fhi)

/-- Witness for C10: a failing FHI gate at concrete inputs forces
useRecommendedMinFHI = false. -/
theorem C10_witness :
    (40:ℚ) < card_min_fhi 40 false ∧ false = false :=
  ⟨by norm_num [card_min_fhi],
    (C10_recommended_min_fhi_gate 40 0 0 0 0 0 false 0).2.2.2.2.2.1
      (by norm_num [card_min_fhi])⟩

end Fynstra
